import Mathlib

-- Verification of the parameter-editing and change-logging subsystem of the
-- cosmoteer-wiki-update bot (src/update_template.py, src/LogfileLogger.py,
-- src/input_data_loaders.py), shallowly embedded in Lean.

namespace CosmoteerWiki

/-- One template parameter: a name and a raw value. Models one entry of the
mwparserfromhell `Template.params` list that `update_template.py` edits. -/
structure Param where
  name : String
  value : String
deriving Repr, DecidableEq

/-- The ordered parameter list of one template instance (the ParameterBlock). -/
abbrev Template := List Param

/-- Models mwparserfromhell `template.has(name)`: whether some param has the name. -/
def hasParam : Template → String → Bool
  | [], _ => false
  | p :: ps, n => p.name == n || hasParam ps n

/-- Models `template.get(name).value` for the first param with the name
(only ever called by the source under a `template.has` guard, so the
empty-string fallback is unreachable in the verified paths). -/
def getValue : Template → String → String
  | [], _ => ""
  | p :: ps, n => if p.name == n then p.value else getValue ps n

/-- Models `template.remove(name)`: deletes entries of the given name, closing
the gap. Parameter names are unique within a block (spec invariant), so this
coincides with removing the single matching entry. -/
def removeParam : Template → String → Template
  | [], _ => []
  | p :: ps, n => if p.name == n then removeParam ps n else p :: removeParam ps n

/-- Helper for `addParam`: overwrite the value of the named param in place,
keeping its position (mwparserfromhell `add` on an existing param). -/
def setValueInPlace : Template → String → String → Template
  | [], _, _ => []
  | p :: ps, n, v =>
      if p.name == n then { name := p.name, value := v } :: setValueInPlace ps n v
      else p :: setValueInPlace ps n v

/-- Helper for `addParam`: insert a new entry immediately before the first
entry with the given pivot name (appending if the pivot is absent; the source
only reaches this with an existing pivot). -/
def insertBeforeName : Template → String → Param → Template
  | [], _, q => [q]
  | p :: ps, b, q => if p.name == b then q :: p :: ps else p :: insertBeforeName ps b q

/-- Models mwparserfromhell `template.add(name, value, before=...)`: an existing
param is overwritten in place; a new one is inserted before the named pivot
when given, otherwise appended at the end. -/
def addParam (t : Template) (n v : String) (before : Option String) : Template :=
  if hasParam t n then setValueInPlace t n v
  else
    match before with
    | Option.none => t ++ [{ name := n, value := v }]
    | Option.some b => insertBeforeName t b { name := n, value := v }

/-- Index of the first param with the given name, as computed by the list
comprehension in `move_param` / `set_param_value` (lines 216-219, 342-344). -/
def firstIndexOf : Template → String → Option Nat
  | [], _ => Option.none
  | p :: ps, a =>
      if p.name == a then Option.some 0
      else (firstIndexOf ps a).map (fun i => i + 1)

/-- Name of the param at position i (the source indexes `template.params[i]`
only under bounds established by `firstIndexOf`). -/
def paramNameAt (t : Template) (i : Nat) : String :=
  (t.getD i { name := "", value := "" }).name

/-- Models Python `str.strip()` as applied by `get_param_value_from_template`:
drops whitespace from both ends. -/
def pyStrip (s : String) : String :=
  String.mk (((s.toList.dropWhile Char.isWhitespace).reverse.dropWhile Char.isWhitespace).reverse)

/-- One cell of a logged CSV row. Python writes `None` cells and boolean
cells through `csv.writer`, which serializes them distinctly from strings. -/
inductive Cell where
  | str (s : String)
  | bool (b : Bool)
  | none
deriving Repr, DecidableEq

/-- How `csv.writer` serializes a cell: `None` becomes the empty field and
booleans become `True` / `False`. -/
def serializeCell : Cell → String
  | Cell.str s => s
  | Cell.bool b => if b then "True" else "False"
  | Cell.none => ""

/-- Lift an optional string (a Python `str | None` argument) into a cell. -/
def cellOfOpt : Option String → Cell
  | Option.none => Cell.none
  | Option.some s => Cell.str s

/-- One audit row. -/
abbrev Row := List Cell

/-- Header row written once by `LogfileLogger.__init__`. -/
def headerRow : Row :=
  [Cell.str "page title", Cell.str "param_name", Cell.str "error status",
   Cell.str "old value", Cell.str "new value", Cell.str "has value changed?",
   Cell.str "notes"]

/-- Models `LogfileLogger.log_value_change`: the row for a parameter value
change. `value_before` is `None` exactly when the param was just created;
the changed-flag column is the comparison result, or `None` when comparison
is suppressed. -/
def log_value_change (page_title param_name : String) (value_before : Option String)
    (value_after : String) (note : Option String) (compare_for_changes : Bool) : Row :=
  [Cell.str page_title,
   Cell.str param_name,
   Cell.str "ok",
   cellOfOpt value_before,
   Cell.str value_after,
   if compare_for_changes then Cell.bool (decide (value_before ≠ Option.some value_after))
   else Cell.none,
   cellOfOpt note]

/-- Models `LogfileLogger.log_param_rename`. -/
def log_param_rename (page_title param_old_name param_new_name : String) : Row :=
  [Cell.str page_title,
   Cell.str param_old_name,
   Cell.str "ok",
   Cell.str "",
   Cell.str "",
   Cell.str "",
   Cell.str s!"param RENAMED to: {param_new_name}"]

/-- Models `LogfileLogger.log_param_removal`. -/
def log_param_removal (page_title param_name : String) (old_value : Option String) : Row :=
  [Cell.str page_title,
   Cell.str param_name,
   Cell.str "ok",
   cellOfOpt old_value,
   Cell.str "",
   Cell.str "",
   Cell.str "param REMOVED"]

/-- Models `LogfileLogger.log_error`. Note the source builds this row out of
only six cells: the notes column is absent. -/
def log_error (page_title param_name error_text : String)
    (value_before value_after : String) : Row :=
  [Cell.str page_title,
   Cell.str param_name,
   Cell.str error_text,
   Cell.str value_before,
   Cell.str value_after,
   Cell.bool (decide (value_before ≠ value_after))]

/-- State of one page while the rule runs: the template being edited plus the
audit rows appended so far by the logger. -/
structure PageState where
  template : Template
  rows : List Row
deriving Repr, DecidableEq

/-- Result of one operation: normal return, or a raised Python exception
carrying its message together with the state at the moment of raising (rows
already written to disk persist across a raise). -/
abbrev OpResult := Except (String × PageState) PageState

/-- The page state an operation left behind, whether it returned or raised. -/
def stateOf : OpResult → PageState
  | Except.ok s => s
  | Except.error e => e.2

/-- Audit rows present after an operation. -/
def rowsOf (r : OpResult) : List Row := (stateOf r).rows

/-- Template contents after an operation. -/
def templateOf (r : OpResult) : Template := (stateOf r).template

/-- Whether the operation returned normally (no exception). -/
def isOk : OpResult → Bool
  | Except.ok _ => true
  | Except.error _ => false

/-- Append one audit row to the state. -/
def appendRow (s : PageState) (r : Row) : PageState :=
  { s with rows := s.rows ++ [r] }

/-- Python exception message placeholders (quoting characters elided). -/
def attrErrorLogNote : String :=
  "AttributeError: LogfileLogger object has no attribute log_note"

/-- AttributeError raised by the `logfile_logger.log_param_move` calls. -/
def attrErrorLogParamMove : String :=
  "AttributeError: LogfileLogger object has no attribute log_param_move"

/-- IndexError raised by indexing `[0]` into an empty match list. -/
def indexErrorMsg : String := "IndexError: list index out of range"

/-- ValueError raised by Python `int()` on a non-integer literal. -/
def valueErrorInt (lit : String) : String :=
  s!"ValueError: invalid literal for int() with base 10: {lit}"

/-- Models the local `get_param_value_from_template` of `update_template`:
raises when the param is missing and no default is given, otherwise returns
the default or the stripped value. -/
def get_param_value_from_template (t : Template) (param_name : String)
    (default_value : Option String) : Except String String :=
  if hasParam t param_name = false then
    match default_value with
    | Option.none =>
        Except.error
          s!"failed to retrieve param {param_name} from the template: param is missing and no default is defined"
    | Option.some d => Except.ok d
  else
    Except.ok (pyStrip (getValue t param_name))

/-- Models the local `remove_param` of `update_template`: validates existence,
skips the template mutation in dry-run mode, and always logs a removal row. -/
def remove_param (dry : Bool) (title : String) (s : PageState) (param_name : String) : OpResult :=
  if hasParam s.template param_name = false then
    Except.error (s!"failed to remove param {param_name}: param does not exist", s)
  else
    match get_param_value_from_template s.template param_name Option.none with
    | Except.error e => Except.error (e, s)
    | Except.ok value =>
        Except.ok
          { template := if dry then s.template else removeParam s.template param_name,
            rows := s.rows ++ [log_param_removal title param_name (Option.some value)] }

/-- Models the local `set_param_value` of `update_template`. The `before`
argument is declared but never forwarded to `template.add` (the source binds
it as a named parameter and then calls `template.add(param_name, value,
*args, **kwargs)` without it), so it is unused here exactly as in the source.
The `after` branch removes an existing param first (logging a removal row),
computes the insertion point itself, and skips only the mutation in dry-run
mode; every path that returns normally logs exactly one value-change row. -/
def set_param_value (dry : Bool) (title : String) (s : PageState)
    (param_name value : String) (before after : Option String) : OpResult :=
  let param_exists := hasParam s.template param_name
  let previous_value :=
    if param_exists then Option.some (pyStrip (getValue s.template param_name))
    else Option.none
  match after with
  | Option.some a =>
      if hasParam s.template a = false then
        Except.error (s!"after param {a} is missing from the template", s)
      else
        let step1 : OpResult :=
          if param_exists then remove_param dry title s param_name else Except.ok s
        match step1 with
        | Except.error e => Except.error e
        | Except.ok s1 =>
            match firstIndexOf s1.template a with
            | Option.none => Except.error (indexErrorMsg, s1)
            | Option.some after_param_index =>
                let t2 : Template :=
                  if dry then s1.template
                  else if after_param_index = s1.template.length - 1 then
                    addParam s1.template param_name value Option.none
                  else
                    addParam s1.template param_name value
                      (Option.some (paramNameAt s1.template (after_param_index + 1)))
                Except.ok
                  { template := t2,
                    rows := s1.rows ++
                      [log_value_change title param_name previous_value value
                        (if param_exists then Option.none else Option.some "param CREATED")
                        param_exists] }
  | Option.none =>
      let t2 := if dry then s.template else addParam s.template param_name value Option.none
      Except.ok
        { template := t2,
          rows := s.rows ++
            [log_value_change title param_name previous_value value
              (if param_exists then Option.none else Option.some "param CREATED")
              param_exists] }

/-- Models the local `rename_param` of `update_template`: validates existence,
in live mode performs set-new-then-remove-old through the two helpers above
(each of which logs its own row), in dry-run mode skips both, and always logs
one rename row at the end. -/
def rename_param (dry : Bool) (title : String) (s : PageState)
    (param_name param_new_name : String) : OpResult :=
  if hasParam s.template param_name = false then
    Except.error (s!"failed to rename param {param_name}: param does not exist", s)
  else
    match get_param_value_from_template s.template param_name Option.none with
    | Except.error e => Except.error (e, s)
    | Except.ok value =>
        let inner : OpResult :=
          if dry then Except.ok s
          else
            match set_param_value dry title s param_new_name value
                (Option.some param_name) Option.none with
            | Except.error e => Except.error e
            | Except.ok s1 => remove_param dry title s1 param_name
        match inner with
        | Except.error e => Except.error e
        | Except.ok s2 =>
            Except.ok (appendRow s2 (log_param_rename title param_name param_new_name))

/-- Models the local `move_param` of `update_template`. Both branches end with
a call to `logfile_logger.log_param_move`, a method `LogfileLogger` does not
define, so reaching the end raises AttributeError. The `after` branch also
calls `set_param_value` a second time with `before=before` (which is `None`
there), reproducing the double-write of the source. -/
def move_param (dry : Bool) (title : String) (s : PageState)
    (param_name : String) (before after : Option String) : OpResult :=
  if before.isNone && after.isNone then
    Except.error ("both before and after are None", s)
  else if before.isSome && after.isSome then
    Except.error ("both before and after are set", s)
  else if hasParam s.template param_name = false then
    Except.error (s!"param {param_name} is missing from the template", s)
  else
    match before with
    | Option.some b =>
        if hasParam s.template b = false then
          Except.error (s!"before param {b} is missing from the template", s)
        else
          match get_param_value_from_template s.template param_name Option.none with
          | Except.error e => Except.error (e, s)
          | Except.ok param_value =>
              match remove_param dry title s param_name with
              | Except.error e => Except.error e
              | Except.ok s1 =>
                  match set_param_value dry title s1 param_name param_value
                      (Option.some b) Option.none with
                  | Except.error e => Except.error e
                  | Except.ok s2 => Except.error (attrErrorLogParamMove, s2)
    | Option.none =>
        match after with
        | Option.none => Except.error ("unreachable", s)
        | Option.some a =>
            if hasParam s.template a = false then
              Except.error (s!"after param {a} is missing from the template", s)
            else
              match get_param_value_from_template s.template param_name Option.none with
              | Except.error e => Except.error (e, s)
              | Except.ok param_value =>
                  match remove_param dry title s param_name with
                  | Except.error e => Except.error e
                  | Except.ok s1 =>
                      match firstIndexOf s1.template a with
                      | Option.none => Except.error (indexErrorMsg, s1)
                      | Option.some after_param_index =>
                          let step : OpResult :=
                            if after_param_index = s1.template.length - 1 then
                              set_param_value dry title s1 param_name param_value
                                Option.none Option.none
                            else
                              set_param_value dry title s1 param_name param_value
                                (Option.some (paramNameAt s1.template (after_param_index + 1)))
                                Option.none
                          match step with
                          | Except.error e => Except.error e
                          | Except.ok s2 =>
                              match set_param_value dry title s2 param_name param_value
                                  Option.none Option.none with
                              | Except.error e => Except.error e
                              | Except.ok s3 => Except.error (attrErrorLogParamMove, s3)

/-- Models `re.search(r"\d+", s)` restricted to ASCII digits: the leftmost
maximal digit run, or `none` when the string holds no digit. -/
def searchDigits : List Char → Option String
  | [] => Option.none
  | c :: rest =>
      if c.isDigit then Option.some (String.mk (c :: rest.takeWhile Char.isDigit))
      else searchDigits rest

/-- Whether the pattern (first list) occurs verbatim at the head of the text. -/
def startsWithChars : List Char → List Char → Bool
  | [], _ => true
  | _ :: _, [] => false
  | c :: cs, d :: ds => c == d && startsWithChars cs ds

/-- Models matching the regex fragment `[+-]?([0-9]*[.])?[0-9]+` at a fixed
position, with the backtracking of the optional digits-dot group: a sign, then
either digits-dot-digits or plain digits, greedily. Returns the matched text. -/
def matchFloat (cs : List Char) : Option String :=
  let split : List Char × List Char :=
    match cs with
    | c :: r => if c == '+' || c == '-' then ([c], r) else ([], cs)
    | [] => ([], [])
  let sign := split.1
  let rest := split.2
  let ds := rest.takeWhile Char.isDigit
  let rest2 := rest.drop ds.length
  match rest2 with
  | '.' :: r3 =>
      let ds2 := r3.takeWhile Char.isDigit
      if ds2.isEmpty then
        if ds.isEmpty then Option.none else Option.some (String.mk (sign ++ ds))
      else Option.some (String.mk (sign ++ ds ++ '.' :: ds2))
  | _ => if ds.isEmpty then Option.none else Option.some (String.mk (sign ++ ds))

/-- The literal part of the pattern `r"Suggested: ([+-]?([0-9]*[.])?[0-9]+)"`. -/
def suggestedLit : List Char := "Suggested: ".toList

/-- Models `re.search` of the suggested-crew pattern: the leftmost position
where the literal matches and the float fragment matches right after it;
returns capture group 1 (the float text). -/
def searchSuggested : List Char → Option String
  | [] => Option.none
  | c :: rest =>
      if startsWithChars suggestedLit (c :: rest) then
        match matchFloat ((c :: rest).drop suggestedLit.length) with
        | Option.some g => Option.some g
        | Option.none => searchSuggested rest
      else searchSuggested rest

/-- Value of a nonempty all-digit character run. -/
def digitsToInt (cs : List Char) : Option Int :=
  if cs.isEmpty || !(cs.all Char.isDigit) then Option.none
  else Option.some (Int.ofNat (cs.foldl (fun acc c => acc * 10 + (c.toNat - Char.toNat '0')) 0))

/-- Models Python `int()` on the strings the two regexes above can produce:
an optional sign followed by one or more ASCII digits succeeds; anything else
(in particular a float literal such as "2.5") raises ValueError, modelled by
`none`. -/
def pyInt (s : String) : Option Int :=
  match s.toList with
  | [] => Option.none
  | c :: rest =>
      if c == '+' then digitsToInt rest
      else if c == '-' then (digitsToInt rest).map (fun n => -n)
      else digitsToInt (c :: rest)

/-- Models Python `str()` on an int. -/
def pyStr (i : Int) : String := toString i

/-- Name of the crew parameter the rule rewrites. -/
def crew_param_name : String := "crew"

/-- Name of the sentinel parameter marking a page as already processed. -/
def suggested_crew_param_name : String := "suggested_crew"

/-- Models the per-page rule body of `TemplateModifier.update_template`
(src/update_template.py lines 374-409), for a page in the main namespace.
The already-processed branch calls `logfile_logger.log_note`, a method
`LogfileLogger` does not define, so it raises AttributeError; the extraction
branches log an error row and return; `int()` on the captured suggested value
raises ValueError when the capture is a float literal. -/
def update_template (dry : Bool) (title : String) (s : PageState) : OpResult :=
  if hasParam s.template suggested_crew_param_name then
    Except.error (attrErrorLogNote, s)
  else if hasParam s.template crew_param_name = false then
    Except.ok (appendRow s (log_error title crew_param_name "param is not present" "" ""))
  else
    match get_param_value_from_template s.template crew_param_name Option.none with
    | Except.error e => Except.error (e, s)
    | Except.ok param_value_str =>
        match searchDigits param_value_str.toList with
        | Option.none =>
            Except.ok (appendRow s
              (log_error title crew_param_name "failed to extract the current crew count"
                param_value_str ""))
        | Option.some m0 =>
            match pyInt m0 with
            | Option.none => Except.error (valueErrorInt m0, s)
            | Option.some crew_current =>
                match searchSuggested param_value_str.toList with
                | Option.none =>
                    Except.ok (appendRow s
                      (log_error title crew_param_name
                        "failed to extract the suggested crew count" param_value_str ""))
                | Option.some g1 =>
                    match pyInt g1 with
                    | Option.none => Except.error (valueErrorInt g1, s)
                    | Option.some crew_suggested =>
                        match set_param_value dry title s crew_param_name
                            (pyStr crew_current) Option.none Option.none with
                        | Except.error e => Except.error e
                        | Except.ok s1 =>
                            match set_param_value dry title s1 suggested_crew_param_name
                                (pyStr crew_suggested) Option.none
                                (Option.some crew_param_name) with
                            | Except.error e => Except.error e
                            | Except.ok s2 => Except.ok s2

/-- The columns argument of `CsvTransformer.__init__`: an explicit index list
or the literal keyword string "all". -/
inductive ColumnsArg where
  | cols (l : List Int)
  | allKw
deriving Repr, DecidableEq

/-- The keyword string; the source computes `range(len(columns))` over it. -/
def allKeywordStr : String := "all"

/-- Models `self.columns.append(i)` when `self.columns` was never assigned:
the class only carries an annotation, so the attribute does not exist and the
append raises AttributeError; once it existed it would append. -/
def appendToColumns (columns : Option (List Int)) (i : Int) :
    Except String (Option (List Int)) :=
  match columns with
  | Option.none => Except.error "AttributeError: CsvTransformer object has no attribute columns"
  | Option.some l => Except.ok (Option.some (l ++ [i]))

/-- The loop of the `columns == 'all'` branch: `for i in range(len('all'))`
appending each index. -/
def initAllLoop : Option (List Int) → List Nat → Except String (Option (List Int))
  | acc, [] => Except.ok acc
  | acc, i :: rest =>
      match appendToColumns acc (Int.ofNat i) with
      | Except.error e => Except.error e
      | Except.ok acc2 => initAllLoop acc2 rest

/-- The loop of the explicit-list branch: append nonnegative indices, raise on
a negative one. -/
def initColsLoop : Option (List Int) → List Int → Except String (Option (List Int))
  | acc, [] => Except.ok acc
  | acc, i :: rest =>
      if i ≥ 0 then
        match appendToColumns acc i with
        | Except.error e => Except.error e
        | Except.ok acc2 => initColsLoop acc2 rest
      else Except.error s!"transformer setup failed: index {i} is out of bounds"

/-- Models `CsvTransformer.__init__` (inherited unchanged by
`CsvTransformerUnescapeHtml` and `CsvTransformerStripWhitespace`, whose
constructors only call `super().__init__`): returns the final value of the
`columns` attribute (`none` meaning still unset) or the raised exception. -/
def CsvTransformer_init (columns : ColumnsArg) : Except String (Option (List Int)) :=
  match columns with
  | ColumnsArg.allKw => initAllLoop Option.none (List.range allKeywordStr.length)
  | ColumnsArg.cols l => initColsLoop Option.none l

/-- Whether an `Except` computation returned normally. -/
def isOkExc {ε α : Type} : Except ε α → Bool
  | Except.ok _ => true
  | Except.error _ => false

/-- Removing one name leaves the presence of any other name unchanged. -/
theorem hasParam_removeParam (t : Template) (n a : String) (h : a ≠ n) :
    hasParam (removeParam t n) a = hasParam t a := by
  induction t with
  | nil => rfl
  | cons p ps ih =>
      by_cases hp : p.name = n
      · have hna : (n == a) = false := beq_eq_false_iff_ne.mpr (fun hna => h hna.symm)
        simp [removeParam, hasParam, hp, hna, ih]
      · simp [removeParam, hasParam, hp, ih]

/-- The first-index search fails exactly when the name is absent. -/
theorem firstIndexOf_eq_none (t : Template) (a : String) :
    firstIndexOf t a = Option.none ↔ hasParam t a = false := by
  induction t with
  | nil => simp [firstIndexOf, hasParam]
  | cons p ps ih =>
      by_cases hp : p.name = a
      · simp [firstIndexOf, hasParam, hp]
      · simp [firstIndexOf, hasParam, hp, ih]

/-- Overwriting a value in place preserves every name. -/
theorem hasParam_setValueInPlace (t : Template) (n v a : String) :
    hasParam (setValueInPlace t n v) a = hasParam t a := by
  induction t with
  | nil => rfl
  | cons p ps ih =>
      by_cases hp : p.name = n <;> simp [setValueInPlace, hasParam, hp, ih]

/-- Appending one entry at the end preserves and extends name presence. -/
theorem hasParam_append_single (t : Template) (q : Param) (a : String) :
    hasParam (t ++ [q]) a = (hasParam t a || (q.name == a)) := by
  induction t with
  | nil => simp [hasParam]
  | cons p ps ih => simp [hasParam, ih, Bool.or_assoc]

/-- A plain `template.add` keeps every name that was already present. -/
theorem hasParam_addParam_none (t : Template) (n v a : String)
    (h : hasParam t a = true) :
    hasParam (addParam t n v Option.none) a = true := by
  unfold addParam
  by_cases hn : hasParam t n = true
  · simp [hn, hasParam_setValueInPlace, h]
  · simp [hn, hasParam_append_single, h]

/-- Closed form of `set_param_value` with no `after` placement: it always
returns normally, appends exactly one value-change row, and mutates the
template only outside dry-run mode. The declared `before` argument has no
effect, exactly as in the source. -/
theorem set_param_value_none_eq (dry : Bool) (title : String) (s : PageState)
    (n v : String) (b : Option String) :
    set_param_value dry title s n v b Option.none =
      Except.ok
        { template := if dry then s.template else addParam s.template n v Option.none,
          rows := s.rows ++
            [log_value_change title n
              (if hasParam s.template n then Option.some (pyStrip (getValue s.template n))
               else Option.none)
              v
              (if hasParam s.template n then Option.none else Option.some "param CREATED")
              (hasParam s.template n)] } := rfl

/-- Closed form of `remove_param` on an existing parameter. -/
theorem remove_param_eq_of_has (dry : Bool) (title : String) (s : PageState)
    (n : String) (h : hasParam s.template n = true) :
    remove_param dry title s n =
      Except.ok
        { template := if dry then s.template else removeParam s.template n,
          rows := s.rows ++
            [log_param_removal title n (Option.some (pyStrip (getValue s.template n)))] } := by
  simp [remove_param, get_param_value_from_template, h]

/-- `remove_param` on a missing parameter raises without logging. -/
theorem remove_param_eq_of_not_has (dry : Bool) (title : String) (s : PageState)
    (n : String) (h : hasParam s.template n = false) :
    remove_param dry title s n =
      Except.error (s!"failed to remove param {n}: param does not exist", s) := by
  simp [remove_param, h]

/-- In dry-run mode `remove_param` never touches the template, whether it
returns or raises. -/
theorem remove_param_dry_template (title : String) (s : PageState) (n : String) :
    (stateOf (remove_param true title s n)).template = s.template := by
  by_cases h : hasParam s.template n = true
  · rw [remove_param_eq_of_has true title s n h]
    rfl
  · rw [remove_param_eq_of_not_has true title s n (by simpa using h)]
    rfl

/-- In dry-run mode `set_param_value` never touches the template, whether it
returns or raises, for any placement arguments. -/
theorem set_param_value_dry_template (title : String) (s : PageState)
    (n v : String) (b a : Option String) :
    (stateOf (set_param_value true title s n v b a)).template = s.template := by
  cases a with
  | none => rfl
  | some a0 =>
      unfold set_param_value
      dsimp only
      by_cases ha : hasParam s.template a0 = false
      · simp [ha, stateOf]
      · rw [if_neg ha]
        by_cases hn : hasParam s.template n = true
        · rw [if_pos hn, remove_param_eq_of_has true title s n hn]
          split
          next e heq => injection heq
          next s1 heq =>
            injection heq with h2
            subst h2
            split
            next => rfl
            next => rfl
        · rw [if_neg hn]
          split
          next e heq => injection heq
          next s1 heq =>
            injection heq with h2
            subst h2
            split
            next => rfl
            next => rfl

/-- In dry-run mode `rename_param` never touches the template: the inner
set/remove pair is skipped entirely. -/
theorem rename_param_dry_template (title : String) (s : PageState) (n m : String) :
    (stateOf (rename_param true title s n m)).template = s.template := by
  unfold rename_param
  by_cases h : hasParam s.template n = false
  · simp [h, stateOf]
  · have h2 : hasParam s.template n = true := by simpa using h
    simp [h, h2, get_param_value_from_template, stateOf, appendRow]

/-- In dry-run mode `move_param` never touches the template, whether it
raises in validation, in the missing logger method, or elsewhere. -/
theorem move_param_dry_template (title : String) (s : PageState) (n : String)
    (b a : Option String) :
    (stateOf (move_param true title s n b a)).template = s.template := by
  cases b with
  | none =>
      cases a with
      | none => rfl
      | some a0 =>
          by_cases hn : hasParam s.template n = false
          · simp [move_param, hn, stateOf]
          · by_cases ha : hasParam s.template a0 = false
            · simp [move_param, hn, ha, stateOf]
            · have hn2 : hasParam s.template n = true := by simpa using hn
              have hget : get_param_value_from_template s.template n Option.none
                  = Except.ok (pyStrip (getValue s.template n)) := by
                simp [get_param_value_from_template, hn2]
              simp only [move_param, hget, remove_param_eq_of_has true title s n hn2, hn, ha,
                Option.isNone_none, Option.isNone_some, Option.isSome_none, Option.isSome_some,
                Bool.true_and, Bool.and_true, Bool.false_and, Bool.and_false,
                Bool.false_eq_true, Bool.true_eq_false, if_false, ite_false, if_true, ite_true]
              cases hfind : firstIndexOf s.template a0 with
              | none => simp [hfind, stateOf]
              | some i =>
                  simp only [hfind]
                  by_cases hlast : i = s.template.length - 1
                  · simp only [hlast, if_true, ite_true, eq_self_iff_true, set_param_value_none_eq,
                      if_false, ite_false, Bool.true_eq_false, Bool.false_eq_true]
                    simp [stateOf]
                  · simp only [hlast, if_false, ite_false, set_param_value_none_eq]
                    simp [stateOf]
  | some b0 =>
      cases a with
      | some a0 => rfl
      | none =>
          by_cases hn : hasParam s.template n = false
          · simp [move_param, hn, stateOf]
          · by_cases hb : hasParam s.template b0 = false
            · simp [move_param, hn, hb, stateOf]
            · have hn2 : hasParam s.template n = true := by simpa using hn
              have hget : get_param_value_from_template s.template n Option.none
                  = Except.ok (pyStrip (getValue s.template n)) := by
                simp [get_param_value_from_template, hn2]
              simp only [move_param, hget, remove_param_eq_of_has true title s n hn2, hn, hb,
                Option.isNone_none, Option.isNone_some, Option.isSome_none, Option.isSome_some,
                Bool.true_and, Bool.and_true, Bool.false_and, Bool.and_false,
                Bool.false_eq_true, Bool.true_eq_false, if_false, ite_false, if_true, ite_true,
                set_param_value_none_eq]
              simp [stateOf]

/-- In dry-run mode the per-page rule never touches the template, on every
control path: skip, error rows, raised exceptions, and the two set calls. -/
theorem update_template_dry_template (title : String) (s : PageState) :
    (stateOf (update_template true title s)).template = s.template := by
  unfold update_template
  by_cases hs : hasParam s.template suggested_crew_param_name = true
  · simp [hs, stateOf]
  · rw [if_neg hs]
    by_cases hc : hasParam s.template crew_param_name = false
    · simp [hc, stateOf, appendRow]
    · rw [if_neg hc]
      have hc2 : hasParam s.template crew_param_name = true := by simpa using hc
      rw [show get_param_value_from_template s.template crew_param_name Option.none
            = Except.ok (pyStrip (getValue s.template crew_param_name)) from by
          simp [get_param_value_from_template, hc2]]
      split
      next e heq => injection heq
      next pv heq =>
        injection heq with hpv
        subst hpv
        split
        next => rfl
        next m0 hm0 =>
          split
          next => rfl
          next cc hcc =>
            split
            next => rfl
            next g1 hg1 =>
              split
              next => rfl
              next csug hcsug =>
                rw [set_param_value_none_eq]
                split
                next e2 heq2 => injection heq2
                next s1 heq2 =>
                  injection heq2 with hs1
                  subst hs1
                  split
                  next e3 heq3 =>
                    have h2 := congrArg (fun r => (stateOf r).template) heq3
                    simp only [set_param_value_dry_template] at h2
                    rw [← h2]
                    rfl
                  next s2 heq3 =>
                    have h2 := congrArg (fun r => (stateOf r).template) heq3
                    simp only [set_param_value_dry_template] at h2
                    rw [← h2]
                    rfl

/-- Row-count of `set_param_value` with no after placement: one row, always. -/
theorem c1_set_none (dry : Bool) (title : String) (s : PageState) (n v : String) :
    (rowsOf (set_param_value dry title s n v Option.none Option.none)).length
      = s.rows.length + 1 := by
  rw [set_param_value_none_eq]
  simp [rowsOf, stateOf]

theorem c1_set_after (dry : Bool) (title : String) (s : PageState) (n v a : String)
    (ha : hasParam s.template a = true) (hn : hasParam s.template n = true) (hne : a ≠ n) :
    (rowsOf (set_param_value dry title s n v Option.none (Option.some a))).length
      = s.rows.length + 2 := by
  unfold set_param_value
  dsimp only
  rw [if_neg (by simp [ha]), if_pos hn, remove_param_eq_of_has dry title s n hn]
  split
  next e heq => injection heq
  next s1 heq =>
    injection heq with h2
    subst h2
    dsimp only
    have hfa : hasParam (if dry then s.template else removeParam s.template n) a = true := by
      cases dry <;> simp [ha, hasParam_removeParam _ _ _ hne]
    cases hidx : firstIndexOf (if dry then s.template else removeParam s.template n) a with
    | none => exact absurd ((firstIndexOf_eq_none _ _).mp hidx) (by simp [hfa])
    | some i => simp [hidx, rowsOf, stateOf]

theorem c1_remove (dry : Bool) (title : String) (s : PageState) (n : String)
    (hn : hasParam s.template n = true) :
    (rowsOf (remove_param dry title s n)).length = s.rows.length + 1 := by
  rw [remove_param_eq_of_has dry title s n hn]
  simp [rowsOf, stateOf]

theorem c1_remove_missing (dry : Bool) (title : String) (s : PageState) (n : String)
    (hn : hasParam s.template n = false) :
    (rowsOf (remove_param dry title s n)).length = s.rows.length ∧
    isOk (remove_param dry title s n) = false := by
  rw [remove_param_eq_of_not_has dry title s n hn]
  simp [rowsOf, stateOf, isOk]

theorem c1_rename_dry (title : String) (s : PageState) (old nw : String)
    (hold : hasParam s.template old = true) :
    (rowsOf (rename_param true title s old nw)).length = s.rows.length + 1 := by
  unfold rename_param
  rw [if_neg (by simp [hold])]
  rw [show get_param_value_from_template s.template old Option.none
        = Except.ok (pyStrip (getValue s.template old)) from by
      simp [get_param_value_from_template, hold]]
  simp [rowsOf, stateOf, appendRow]

theorem c1_rename_live (title : String) (s : PageState) (old nw : String)
    (hold : hasParam s.template old = true) :
    (rowsOf (rename_param false title s old nw)).length = s.rows.length + 3 := by
  unfold rename_param
  rw [if_neg (by simp [hold])]
  rw [show get_param_value_from_template s.template old Option.none
        = Except.ok (pyStrip (getValue s.template old)) from by
      simp [get_param_value_from_template, hold]]
  simp only [set_param_value_none_eq, Bool.false_eq_true, if_false, ite_false]
  rw [remove_param_eq_of_has false title
    { template := addParam s.template nw (pyStrip (getValue s.template old)) Option.none,
      rows := s.rows ++
        [log_value_change title nw
          (if hasParam s.template nw = true then Option.some (pyStrip (getValue s.template nw))
           else Option.none)
          (pyStrip (getValue s.template old))
          (if hasParam s.template nw = true then Option.none else Option.some "param CREATED")
          (hasParam s.template nw)] } old
    (by simpa using hasParam_addParam_none s.template nw (pyStrip (getValue s.template old)) old hold)]
  simp [rowsOf, stateOf, appendRow]

theorem c1_move_before (dry : Bool) (title : String) (s : PageState) (mov piv : String)
    (hm : hasParam s.template mov = true) (hp : hasParam s.template piv = true) :
    (rowsOf (move_param dry title s mov (Option.some piv) Option.none)).length
        = s.rows.length + 2 ∧
    isOk (move_param dry title s mov (Option.some piv) Option.none) = false := by
  unfold move_param
  dsimp only
  rw [if_neg (by simp [hm]), if_neg (by simp [hp])]
  rw [show get_param_value_from_template s.template mov Option.none
        = Except.ok (pyStrip (getValue s.template mov)) from by
      simp [get_param_value_from_template, hm]]
  rw [remove_param_eq_of_has dry title s mov hm]
  simp only [set_param_value_none_eq]
  simp [rowsOf, stateOf, isOk, hm, hp]

theorem c2_set_none (title : String) (s : PageState) (n v : String) (b : Option String) :
    rowsOf (set_param_value true title s n v b Option.none)
      = rowsOf (set_param_value false title s n v b Option.none) ∧
    isOk (set_param_value true title s n v b Option.none)
      = isOk (set_param_value false title s n v b Option.none) := by
  rw [set_param_value_none_eq, set_param_value_none_eq]
  exact ⟨rfl, rfl⟩

theorem c2_set_after (title : String) (s : PageState) (n v a : String) (hne : a ≠ n) :
    rowsOf (set_param_value true title s n v Option.none (Option.some a))
      = rowsOf (set_param_value false title s n v Option.none (Option.some a)) ∧
    isOk (set_param_value true title s n v Option.none (Option.some a))
      = isOk (set_param_value false title s n v Option.none (Option.some a)) := by
  unfold set_param_value
  dsimp only
  by_cases ha : hasParam s.template a = false
  · simp [ha, rowsOf, stateOf, isOk]
  · have ha2 : hasParam s.template a = true := by simpa using ha
    by_cases hn : hasParam s.template n = true
    · simp only [if_neg ha, if_pos hn, remove_param_eq_of_has true title s n hn,
        remove_param_eq_of_has false title s n hn]
      have hL : hasParam (removeParam s.template n) a = true := by
        rw [hasParam_removeParam _ _ _ hne]; exact ha2
      cases hid : firstIndexOf s.template a with
      | none => exact absurd ((firstIndexOf_eq_none _ _).mp hid) (by simp [ha2])
      | some i =>
          cases hil : firstIndexOf (removeParam s.template n) a with
          | none => exact absurd ((firstIndexOf_eq_none _ _).mp hil) (by simp [hL])
          | some j => simp [hid, hil, rowsOf, stateOf, isOk]
    · simp only [if_neg ha, if_neg hn]
      cases hid : firstIndexOf s.template a with
      | none => exact absurd ((firstIndexOf_eq_none _ _).mp hid) (by simp [ha2])
      | some i => simp [hid, rowsOf, stateOf, isOk]

theorem c2_remove (title : String) (s : PageState) (n : String) :
    rowsOf (remove_param true title s n) = rowsOf (remove_param false title s n) ∧
    isOk (remove_param true title s n) = isOk (remove_param false title s n) := by
  by_cases hn : hasParam s.template n = true
  · rw [remove_param_eq_of_has true title s n hn, remove_param_eq_of_has false title s n hn]
    exact ⟨rfl, rfl⟩
  · have hn2 : hasParam s.template n = false := by simpa using hn
    rw [remove_param_eq_of_not_has true title s n hn2,
        remove_param_eq_of_not_has false title s n hn2]
    exact ⟨rfl, rfl⟩

/-- C1 (counterexample): `rename_param` in live mode on the block
[a=1, b=2, c=3] appends three audit rows (the created-row of the internal
set, the removal row of the internal remove, and the rename row), not
exactly one as the claim states. -/
theorem rename_live_appends_three_rows :
    (rowsOf (rename_param false "Page"
      { template := [{ name := "a", value := "1" }, { name := "b", value := "2" },
                     { name := "c", value := "3" }], rows := [] } "b" "x")).length = 3 ∧
    ¬ (rowsOf (rename_param false "Page"
      { template := [{ name := "a", value := "1" }, { name := "b", value := "2" },
                     { name := "c", value := "3" }], rows := [] } "b" "x")).length = 1 := by
  exact ⟨rfl, by decide⟩

/-- C2 (counterexample): on the block [a=1, b=2, c=3], renaming b to x writes
one audit row in dry-run mode but three rows in live mode, so the two modes
do not produce identical row sequences. -/
theorem dry_and_live_rename_rows_differ :
    (rowsOf (rename_param true "Page"
      { template := [{ name := "a", value := "1" }, { name := "b", value := "2" },
                     { name := "c", value := "3" }], rows := [] } "b" "x")).length = 1 ∧
    (rowsOf (rename_param false "Page"
      { template := [{ name := "a", value := "1" }, { name := "b", value := "2" },
                     { name := "c", value := "3" }], rows := [] } "b" "x")).length = 3 ∧
    rowsOf (rename_param true "Page"
      { template := [{ name := "a", value := "1" }, { name := "b", value := "2" },
                     { name := "c", value := "3" }], rows := [] } "b" "x") ≠
    rowsOf (rename_param false "Page"
      { template := [{ name := "a", value := "1" }, { name := "b", value := "2" },
                     { name := "c", value := "3" }], rows := [] } "b" "x") := by
  refine ⟨rfl, rfl, ?_⟩
  intro h
  exact absurd (congrArg List.length h) (by decide)

/-- C3: on the block [a=1, b=2, c=3], `rename_param(b, x)` in live mode yields
[a=1, c=3, x=2], not the order-preserving [a=1, x=2, c=3] promised by the
docstring and the spec: `set_param_value` silently drops its `before`
argument, so the renamed parameter is appended at the end. -/
theorem rename_appends_at_end :
    templateOf (rename_param false "Page"
      { template := [{ name := "a", value := "1" }, { name := "b", value := "2" },
                     { name := "c", value := "3" }], rows := [] } "b" "x")
      = [{ name := "a", value := "1" }, { name := "c", value := "3" },
         { name := "x", value := "2" }] ∧
    templateOf (rename_param false "Page"
      { template := [{ name := "a", value := "1" }, { name := "b", value := "2" },
                     { name := "c", value := "3" }], rows := [] } "b" "x")
      ≠ [{ name := "a", value := "1" }, { name := "x", value := "2" },
         { name := "c", value := "3" }] := by
  exact ⟨rfl, by decide⟩

/-- C4: on a page whose template already carries the suggested_crew sentinel,
the rule raises AttributeError (LogfileLogger has no log_note method) with
zero audit rows written, instead of logging one note-status row and
returning. The template is left unmutated. -/
theorem sentinel_page_raises_attribute_error :
    update_template false "Page"
      { template := [{ name := "suggested_crew", value := "8" }], rows := [] }
      = Except.error (attrErrorLogNote,
          { template := [{ name := "suggested_crew", value := "8" }], rows := [] }) := rfl

/-- C5: the crew value "1 (Suggested: 2.5)" matches the suggested-crew regex
with capture "2.5", and Python int() then raises ValueError, which propagates
out of the rule with zero audit rows written — contradicting the claim that
every extraction failure is logged and swallowed. -/
theorem malformed_suggested_value_raises :
    update_template false "Page"
      { template := [{ name := "crew", value := "1 (Suggested: 2.5)" }], rows := [] }
      = Except.error (valueErrorInt "2.5",
          { template := [{ name := "crew", value := "1 (Suggested: 2.5)" }], rows := [] }) := rfl

/-- C6: on the block [a=1, b=2], `move_param(a, after=b)` in live mode does
leave the template as [b=2, a=1] (the append-at-end path), but the operation
then raises AttributeError instead of logging a move record, after writing
three rows (removal, created, unchanged-rewrite) none of which is a move
record. -/
theorem move_after_last_entry_result :
    templateOf (move_param false "Page"
      { template := [{ name := "a", value := "1" }, { name := "b", value := "2" }],
        rows := [] } "a" Option.none (Option.some "b"))
      = [{ name := "b", value := "2" }, { name := "a", value := "1" }] ∧
    isOk (move_param false "Page"
      { template := [{ name := "a", value := "1" }, { name := "b", value := "2" }],
        rows := [] } "a" Option.none (Option.some "b")) = false ∧
    (rowsOf (move_param false "Page"
      { template := [{ name := "a", value := "1" }, { name := "b", value := "2" }],
        rows := [] } "a" Option.none (Option.some "b"))).length = 3 := by
  exact ⟨rfl, rfl, rfl⟩

/-- C7: on the block [a=1, b=2, c=3], `move_param(a, before=c)` in live mode
yields [b=2, c=3, a=1] — the moved parameter lands at the end, not
immediately before the pivot, because `set_param_value` drops its `before`
argument — and the operation then raises AttributeError from the missing
log_param_move method. -/
theorem move_before_appends_at_end :
    templateOf (move_param false "Page"
      { template := [{ name := "a", value := "1" }, { name := "b", value := "2" },
                     { name := "c", value := "3" }], rows := [] } "a" (Option.some "c") Option.none)
      = [{ name := "b", value := "2" }, { name := "c", value := "3" },
         { name := "a", value := "1" }] ∧
    templateOf (move_param false "Page"
      { template := [{ name := "a", value := "1" }, { name := "b", value := "2" },
                     { name := "c", value := "3" }], rows := [] } "a" (Option.some "c") Option.none)
      ≠ [{ name := "b", value := "2" }, { name := "a", value := "1" },
         { name := "c", value := "3" }] ∧
    isOk (move_param false "Page"
      { template := [{ name := "a", value := "1" }, { name := "b", value := "2" },
                     { name := "c", value := "3" }], rows := [] } "a" (Option.some "c") Option.none)
      = false := by
  exact ⟨rfl, by decide, rfl⟩

/-- C8: changed-flag semantics of `set_param_value`. Setting crew=5 on a block
without crew logs the unknown changed-flag (an empty cell) and the note
"param CREATED"; setting crew=5 where crew is already 5 logs changed-flag
false; setting crew=6 where crew is 5 logs changed-flag true. -/
theorem set_value_changed_flag_semantics :
    rowsOf (set_param_value false "Page" { template := [], rows := [] }
        "crew" "5" Option.none Option.none)
      = [[Cell.str "Page", Cell.str "crew", Cell.str "ok", Cell.none, Cell.str "5",
          Cell.none, Cell.str "param CREATED"]] ∧
    rowsOf (set_param_value false "Page"
        { template := [{ name := "crew", value := "5" }], rows := [] }
        "crew" "5" Option.none Option.none)
      = [[Cell.str "Page", Cell.str "crew", Cell.str "ok", Cell.str "5", Cell.str "5",
          Cell.bool false, Cell.none]] ∧
    rowsOf (set_param_value false "Page"
        { template := [{ name := "crew", value := "5" }], rows := [] }
        "crew" "6" Option.none Option.none)
      = [[Cell.str "Page", Cell.str "crew", Cell.str "ok", Cell.str "5", Cell.str "6",
          Cell.bool true, Cell.none]] ∧
    serializeCell Cell.none = "" := by
  exact ⟨rfl, by decide, by decide, rfl⟩

/-- C9 (counterexample): the error row appended by the rule on a page whose
template lacks the crew parameter has six columns, not the seven the claim
requires of every audit row — `log_error` omits the note column. -/
theorem error_row_has_six_columns :
    (rowsOf (update_template false "Page"
      { template := [{ name := "x", value := "1" }], rows := [] })).map List.length = [6] ∧
    ((rowsOf (update_template false "Page"
      { template := [{ name := "x", value := "1" }], rows := [] })).all
        (fun r => r.length == 7)) = false := by
  exact ⟨rfl, rfl⟩

/-- C10 (counterexample): constructing a CsvTransformer with the empty column
list raises nothing — the loop body never runs, so the uninitialized columns
attribute is never touched and `__init__` returns normally (leaving the
attribute unset). -/
theorem empty_columns_list_constructs :
    CsvTransformer_init (ColumnsArg.cols []) = Except.ok Option.none ∧
    isOkExc (CsvTransformer_init (ColumnsArg.cols [])) = true := by
  exact ⟨rfl, rfl⟩

/-- C1 (amended): audit rows appended per operation. `set_param_value` with no
after placement appends exactly one row; with an after placement on a distinct
existing parameter it appends two (its internal removal logs its own row);
`remove_param` appends one row on success and zero rows when it raises;
`rename_param` on an existing parameter appends one row in dry-run mode but
three rows in live mode (one per internal sub-operation plus the rename
record); `move_param` with a before pivot on existing parameters appends two
rows and then raises from the missing log_param_move method. -/
theorem audit_rows_per_operation (dry : Bool) (title v : String) (s : PageState)
    (n a old nw mov piv miss : String) :
    ((rowsOf (set_param_value dry title s n v Option.none Option.none)).length
        = s.rows.length + 1) ∧
    (hasParam s.template a = true → hasParam s.template n = true → a ≠ n →
      (rowsOf (set_param_value dry title s n v Option.none (Option.some a))).length
        = s.rows.length + 2) ∧
    (hasParam s.template n = true →
      (rowsOf (remove_param dry title s n)).length = s.rows.length + 1) ∧
    (hasParam s.template miss = false →
      (rowsOf (remove_param dry title s miss)).length = s.rows.length ∧
      isOk (remove_param dry title s miss) = false) ∧
    (hasParam s.template old = true →
      (rowsOf (rename_param true title s old nw)).length = s.rows.length + 1) ∧
    (hasParam s.template old = true →
      (rowsOf (rename_param false title s old nw)).length = s.rows.length + 3) ∧
    (hasParam s.template mov = true → hasParam s.template piv = true →
      (rowsOf (move_param dry title s mov (Option.some piv) Option.none)).length
          = s.rows.length + 2 ∧
      isOk (move_param dry title s mov (Option.some piv) Option.none) = false) :=
  ⟨c1_set_none dry title s n v,
   fun ha hn hne => c1_set_after dry title s n v a ha hn hne,
   fun hn => c1_remove dry title s n hn,
   fun hm => c1_remove_missing dry title s miss hm,
   fun hold => c1_rename_dry title s old nw hold,
   fun hold => c1_rename_live title s old nw hold,
   fun hm hp => c1_move_before dry title s mov piv hm hp⟩

/-- C1 (witness): the amended row counts evaluated on the concrete block
[p=1, q=2] in live mode, with every hypothesis discharged. -/
theorem audit_rows_per_operation_witness :
    ((rowsOf (set_param_value false "T"
        { template := [{ name := "p", value := "1" }, { name := "q", value := "2" }],
          rows := [] } "p" "5" Option.none Option.none)).length
      = ({ template := [{ name := "p", value := "1" }, { name := "q", value := "2" }],
           rows := [] } : PageState).rows.length + 1) ∧
    ((rowsOf (set_param_value false "T"
        { template := [{ name := "p", value := "1" }, { name := "q", value := "2" }],
          rows := [] } "p" "5" Option.none (Option.some "q"))).length
      = ({ template := [{ name := "p", value := "1" }, { name := "q", value := "2" }],
           rows := [] } : PageState).rows.length + 2) ∧
    ((rowsOf (remove_param false "T"
        { template := [{ name := "p", value := "1" }, { name := "q", value := "2" }],
          rows := [] } "p")).length
      = ({ template := [{ name := "p", value := "1" }, { name := "q", value := "2" }],
           rows := [] } : PageState).rows.length + 1) ∧
    ((rowsOf (remove_param false "T"
        { template := [{ name := "p", value := "1" }, { name := "q", value := "2" }],
          rows := [] } "z")).length
      = ({ template := [{ name := "p", value := "1" }, { name := "q", value := "2" }],
           rows := [] } : PageState).rows.length ∧
     isOk (remove_param false "T"
        { template := [{ name := "p", value := "1" }, { name := "q", value := "2" }],
          rows := [] } "z") = false) ∧
    ((rowsOf (rename_param true "T"
        { template := [{ name := "p", value := "1" }, { name := "q", value := "2" }],
          rows := [] } "p" "r")).length
      = ({ template := [{ name := "p", value := "1" }, { name := "q", value := "2" }],
           rows := [] } : PageState).rows.length + 1) ∧
    ((rowsOf (rename_param false "T"
        { template := [{ name := "p", value := "1" }, { name := "q", value := "2" }],
          rows := [] } "p" "r")).length
      = ({ template := [{ name := "p", value := "1" }, { name := "q", value := "2" }],
           rows := [] } : PageState).rows.length + 3) ∧
    ((rowsOf (move_param false "T"
        { template := [{ name := "p", value := "1" }, { name := "q", value := "2" }],
          rows := [] } "p" (Option.some "q") Option.none)).length
      = ({ template := [{ name := "p", value := "1" }, { name := "q", value := "2" }],
           rows := [] } : PageState).rows.length + 2 ∧
     isOk (move_param false "T"
        { template := [{ name := "p", value := "1" }, { name := "q", value := "2" }],
          rows := [] } "p" (Option.some "q") Option.none) = false) := by
  have h := audit_rows_per_operation false "T" "5"
    { template := [{ name := "p", value := "1" }, { name := "q", value := "2" }], rows := [] }
    "p" "q" "p" "r" "p" "q" "z"
  exact ⟨h.1, h.2.1 (by decide) (by decide) (by decide), h.2.2.1 (by decide),
    h.2.2.2.1 (by decide), h.2.2.2.2.1 (by decide), h.2.2.2.2.2.1 (by decide),
    h.2.2.2.2.2.2 (by decide) (by decide)⟩

/-- C2 (amended): the dry-run flag never mutates the ParameterBlock for any of
the five entry points, and for `set_param_value` (with no after placement, or
with an after placement distinct from the target) and for `remove_param` the
logged rows and the success status are identical in dry-run and live mode;
`rename_param` and `move_param` do not share this row-identity because the
dry-run flag also skips (or changes the state seen by) their internal
sub-operations. -/
theorem dry_run_contract (title v : String) (s : PageState)
    (n a old nw mov : String) (b aa bb2 aa2 : Option String) :
    (rowsOf (set_param_value true title s n v b Option.none)
       = rowsOf (set_param_value false title s n v b Option.none) ∧
     isOk (set_param_value true title s n v b Option.none)
       = isOk (set_param_value false title s n v b Option.none)) ∧
    (a ≠ n →
      rowsOf (set_param_value true title s n v Option.none (Option.some a))
        = rowsOf (set_param_value false title s n v Option.none (Option.some a)) ∧
      isOk (set_param_value true title s n v Option.none (Option.some a))
        = isOk (set_param_value false title s n v Option.none (Option.some a))) ∧
    (rowsOf (remove_param true title s n) = rowsOf (remove_param false title s n) ∧
     isOk (remove_param true title s n) = isOk (remove_param false title s n)) ∧
    (stateOf (set_param_value true title s n v b aa)).template = s.template ∧
    (stateOf (remove_param true title s n)).template = s.template ∧
    (stateOf (rename_param true title s old nw)).template = s.template ∧
    (stateOf (move_param true title s mov bb2 aa2)).template = s.template ∧
    (stateOf (update_template true title s)).template = s.template :=
  ⟨c2_set_none title s n v b,
   fun hne => c2_set_after title s n v a hne,
   c2_remove title s n,
   set_param_value_dry_template title s n v b aa,
   remove_param_dry_template title s n,
   rename_param_dry_template title s old nw,
   move_param_dry_template title s mov bb2 aa2,
   update_template_dry_template title s⟩

/-- C2 (witness): the dry-run contract evaluated on the concrete block [p=1]
with distinct names, every hypothesis discharged. -/
theorem dry_run_contract_witness :
    (rowsOf (set_param_value true "T"
        { template := [{ name := "p", value := "1" }], rows := [] } "p" "5"
        Option.none Option.none)
       = rowsOf (set_param_value false "T"
        { template := [{ name := "p", value := "1" }], rows := [] } "p" "5"
        Option.none Option.none) ∧
     isOk (set_param_value true "T"
        { template := [{ name := "p", value := "1" }], rows := [] } "p" "5"
        Option.none Option.none)
       = isOk (set_param_value false "T"
        { template := [{ name := "p", value := "1" }], rows := [] } "p" "5"
        Option.none Option.none)) ∧
    (rowsOf (set_param_value true "T"
        { template := [{ name := "p", value := "1" }], rows := [] } "p" "5"
        Option.none (Option.some "q"))
       = rowsOf (set_param_value false "T"
        { template := [{ name := "p", value := "1" }], rows := [] } "p" "5"
        Option.none (Option.some "q")) ∧
     isOk (set_param_value true "T"
        { template := [{ name := "p", value := "1" }], rows := [] } "p" "5"
        Option.none (Option.some "q"))
       = isOk (set_param_value false "T"
        { template := [{ name := "p", value := "1" }], rows := [] } "p" "5"
        Option.none (Option.some "q"))) ∧
    (rowsOf (remove_param true "T"
        { template := [{ name := "p", value := "1" }], rows := [] } "p")
       = rowsOf (remove_param false "T"
        { template := [{ name := "p", value := "1" }], rows := [] } "p") ∧
     isOk (remove_param true "T"
        { template := [{ name := "p", value := "1" }], rows := [] } "p")
       = isOk (remove_param false "T"
        { template := [{ name := "p", value := "1" }], rows := [] } "p")) ∧
    (stateOf (set_param_value true "T"
        { template := [{ name := "p", value := "1" }], rows := [] } "p" "5"
        Option.none Option.none)).template
      = ({ template := [{ name := "p", value := "1" }], rows := [] } : PageState).template ∧
    (stateOf (remove_param true "T"
        { template := [{ name := "p", value := "1" }], rows := [] } "p")).template
      = ({ template := [{ name := "p", value := "1" }], rows := [] } : PageState).template ∧
    (stateOf (rename_param true "T"
        { template := [{ name := "p", value := "1" }], rows := [] } "p" "r")).template
      = ({ template := [{ name := "p", value := "1" }], rows := [] } : PageState).template ∧
    (stateOf (move_param true "T"
        { template := [{ name := "p", value := "1" }], rows := [] } "p"
        Option.none (Option.some "p"))).template
      = ({ template := [{ name := "p", value := "1" }], rows := [] } : PageState).template ∧
    (stateOf (update_template true "T"
        { template := [{ name := "p", value := "1" }], rows := [] })).template
      = ({ template := [{ name := "p", value := "1" }], rows := [] } : PageState).template := by
  have h := dry_run_contract "T" "5"
    { template := [{ name := "p", value := "1" }], rows := [] }
    "p" "q" "p" "r" "p" Option.none Option.none Option.none (Option.some "p")
  exact ⟨h.1, h.2.1 (by decide), h.2.2.1, h.2.2.2.1, h.2.2.2.2.1, h.2.2.2.2.2.1,
    h.2.2.2.2.2.2.1, h.2.2.2.2.2.2.2⟩

/-- C9 (amended): rows logged by the value-change, rename, and removal
operations have exactly seven columns with the literal ok status in the third
column and a changed-flag that serializes as True, False, or the empty field;
rows logged by `log_error` have only six columns (the note column is
omitted), with the free-text error description as status. -/
theorem log_row_shape (pt pn va et vb2 va2 nw : String) (vb note : Option String)
    (cmp : Bool) :
    (log_value_change pt pn vb va note cmp).length = 7 ∧
    (log_value_change pt pn vb va note cmp).getD 2 Cell.none = Cell.str "ok" ∧
    serializeCell ((log_value_change pt pn vb va note cmp).getD 5 Cell.none)
      ∈ (["True", "False", ""] : List String) ∧
    (log_param_rename pt pn nw).length = 7 ∧
    (log_param_rename pt pn nw).getD 2 Cell.none = Cell.str "ok" ∧
    serializeCell ((log_param_rename pt pn nw).getD 5 Cell.none) = "" ∧
    (log_param_removal pt pn vb).length = 7 ∧
    (log_param_removal pt pn vb).getD 2 Cell.none = Cell.str "ok" ∧
    serializeCell ((log_param_removal pt pn vb).getD 5 Cell.none) = "" ∧
    (log_error pt pn et vb2 va2).length = 6 ∧
    (log_error pt pn et vb2 va2).getD 2 Cell.none = Cell.str et ∧
    serializeCell ((log_error pt pn et vb2 va2).getD 5 Cell.none)
      ∈ (["True", "False", ""] : List String) := by
  refine ⟨rfl, rfl, ?_, rfl, rfl, rfl, rfl, rfl, rfl, rfl, rfl, ?_⟩
  · cases cmp with
    | false => simp [log_value_change, serializeCell]
    | true =>
        cases hd : decide (vb ≠ Option.some va) <;>
          simp [log_value_change, serializeCell, hd]
  · cases hd : decide (vb2 ≠ va2) <;> simp [log_error, serializeCell, hd]

/-- C10 (amended): constructing any CsvTransformer raises for the all keyword
and for every nonempty index list (an AttributeError from appending to the
uninitialized columns attribute, or the out-of-bounds exception for a leading
negative index); the empty list is the one argument that constructs. -/
theorem csv_transformer_init_raises (l : List Int) (h : l ≠ []) :
    isOkExc (CsvTransformer_init (ColumnsArg.cols l)) = false ∧
    isOkExc (CsvTransformer_init ColumnsArg.allKw) = false := by
  constructor
  · cases l with
    | nil => exact absurd rfl h
    | cons i rest =>
        by_cases hi : i ≥ 0
        · simp [CsvTransformer_init, initColsLoop, hi, appendToColumns, isOkExc]
        · simp [CsvTransformer_init, initColsLoop, hi, isOkExc]
  · rfl

/-- C10 (witness): the amended statement at the concrete index list [5]. -/
theorem csv_transformer_init_raises_witness :
    (([5] : List Int) ≠ []) ∧
    (isOkExc (CsvTransformer_init (ColumnsArg.cols [5])) = false ∧
     isOkExc (CsvTransformer_init ColumnsArg.allKw) = false) :=
  ⟨by decide, csv_transformer_init_raises [5] (by decide)⟩

end CosmoteerWiki
